import Mathlib

/-
Verification development for the lox repository (Rust).

Shallow embedding of the sources `src/token.rs`, `src/ast.rs`,
`src/evaluating.rs`, `src/lexing.rs` and `src/parsing.rs`.  The repository
also contains an older, less complete snapshot of the same components
(`src/scanning/token.rs`, `src/parsing/mod.rs`, `src/parsing/ast.rs`,
`src/evaluating/mod.rs`); the top-level files are the most complete variant
and are the ones embedded here.

Modelling conventions:
* Rust `i64` is modelled as unbounded `Int` for `+`, `-`, `*` (no claim
  concerns their overflow behaviour); `/` on integers models both of
  Rust's built-in division aborts explicitly: a zero divisor, and the
  overflow case `i64::MIN / -1` (which Rust checks unconditionally, in
  release builds too).
* Rust `f64` is modelled by `Rat` as a stand-in: the claims settled here
  never depend on float arithmetic, rounding, NaN or infinities — only on
  which structural branch (same-kind vs mixed-kind) is taken.
* A Rust function whose signature has no error channel but whose body can
  hit a `panic` macro (or a panicking built-in such as integer division by
  zero, indexing, or `Option::unwrap`) is modelled with the `Panics` result
  type below: `.ok v` is a normal return, `.panicked msg` is an abort of the
  process.  A function returning `anyhow::Result` is modelled with `Except`,
  whose `.error` is a failure reported by value to the caller.  The parser
  can both bail (by value) and hit panicking operations, hence `Failure`
  distinguishes the two.
* `println` debug output in the sources is a side effect with no bearing on
  any claim and is not modelled, except that the argument expressions that
  the source evaluates for printing are still evaluated (relevant in
  `Parser::if_statement`, which evaluates the condition for a debug print
  and again for the branch decision; both evaluations of the same pure
  expression coincide, so they are modelled as one).
-/

/-- Outcome of a Rust function with no error channel: either a normal
return or a process-aborting `panic`. Models e.g. `AstNode::evaluate`. -/
inductive Panics (α : Type) where
  | ok (val : α)
  | panicked (msg : String)
deriving DecidableEq

/-- Propagate a panic, map a normal result (used to wire the `Number`
operator impls into the evaluator). -/
def pmap {α β : Type} (f : α → β) : Panics α → Panics β
  | .ok a => .ok (f a)
  | .panicked m => .panicked m

/-- `src/token.rs`: `enum Number { Integer(i64), Float(f64) }`. -/
inductive Number where
  | Integer (i : Int)
  | Float (f : Rat)
deriving DecidableEq

/-- `impl Add for Number` (`src/token.rs` lines 150-163): same-kind sums,
mixed kinds hit `panic`. -/
def numberAdd : Number → Number → Panics Number
  | .Integer i1, .Integer i2 => .ok (.Integer (i1 + i2))
  | .Float f1, .Float f2 => .ok (.Float (f1 + f2))
  | _, _ => .panicked "Cannot add integer and float"

/-- `impl Sub for Number` (`src/token.rs` lines 165-178). -/
def numberSub : Number → Number → Panics Number
  | .Integer i1, .Integer i2 => .ok (.Integer (i1 - i2))
  | .Float f1, .Float f2 => .ok (.Float (f1 - f2))
  | _, _ => .panicked "Cannot subtract integer and float"

/-- `impl Mul for Number` (`src/token.rs` lines 180-193). -/
def numberMul : Number → Number → Panics Number
  | .Integer i1, .Integer i2 => .ok (.Integer (i1 * i2))
  | .Float f1, .Float f2 => .ok (.Float (f1 * f2))
  | _, _ => .panicked "Cannot multiply integer and float"

/-- Smallest `i64` value.  `i64::MIN / -1` overflows (the true quotient
`2^63` is not representable) and Rust's `/` aborts there unconditionally,
in release builds too. -/
def i64MinInt : Int := -9223372036854775808

/-- `impl Div for Number` (`src/token.rs` lines 195-208).  `i1 / i2` is
Rust `i64` division: truncation toward zero, with the two built-in aborts
of the `/` operator — a zero divisor, and the `i64::MIN / -1` overflow.
(`f1 / f2` in Rust never aborts; the `Rat` stand-in is used, see the
header — no claim depends on float division.) -/
def numberDiv : Number → Number → Panics Number
  | .Integer i1, .Integer i2 =>
      if i2 = 0 then .panicked "attempt to divide by zero"
      else if i1 = i64MinInt ∧ i2 = -1 then .panicked "attempt to divide with overflow"
      else .ok (.Integer (Int.tdiv i1 i2))
  | .Float f1, .Float f2 => .ok (.Float (f1 / f2))
  | _, _ => .panicked "Cannot divide integer and float"

/-- `impl Neg for Number` (`src/token.rs` lines 210-219): total. -/
def numberNeg : Number → Number
  | .Integer i => .Integer (-i)
  | .Float f => .Float (-f)

/-- Comparison of the `Rat` stand-in for `f64` (`f64::partial_cmp` on
non-NaN values). -/
def ratCompare (a b : Rat) : Ordering :=
  if a < b then .lt else if a = b then .eq else .gt

/-- `impl PartialOrd for Number` (`src/token.rs` lines 221-232): same-kind
comparison, mixed kinds hit `panic`. -/
def numberCmp : Number → Number → Panics (Option Ordering)
  | .Integer i1, .Integer i2 => .ok (some (compare i1 i2))
  | .Float f1, .Float f2 => .ok (some (ratCompare f1 f2))
  | _, _ => .panicked "Cannot compare integer and float"

/-- Rust `>` via `PartialOrd::gt`: `partial_cmp` matches `Some(Greater)`. -/
def numberGt (a b : Number) : Panics Bool :=
  pmap (fun o => o == some Ordering.gt) (numberCmp a b)

/-- Rust `<` via `PartialOrd::lt`. -/
def numberLt (a b : Number) : Panics Bool :=
  pmap (fun o => o == some Ordering.lt) (numberCmp a b)

/-- Rust `>=` via `PartialOrd::ge`: matches `Some(Greater) | Some(Equal)`. -/
def numberGe (a b : Number) : Panics Bool :=
  pmap (fun o => o == some Ordering.gt || o == some Ordering.eq) (numberCmp a b)

/-- Rust `<=` via `PartialOrd::le`. -/
def numberLe (a b : Number) : Panics Bool :=
  pmap (fun o => o == some Ordering.lt || o == some Ordering.eq) (numberCmp a b)

/-- `impl PartialEq for Number` (`src/token.rs` lines 246-257): same-kind
equality, a mixed pair is simply `false` (no panic here). -/
def numberEq : Number → Number → Bool
  | .Integer i1, .Integer i2 => i1 == i2
  | .Float f1, .Float f2 => f1 == f2
  | _, _ => false

/-- `src/evaluating.rs`: `enum EvaluateResult`. -/
inductive EvaluateResult where
  | Boolean (b : Bool)
  | Number (n : Number)
  | String (s : String)
  | Nil
deriving DecidableEq

/-- Derived `PartialEq for EvaluateResult` (the `Number` arm uses
`Number`'s mixed-is-false equality).  Used by `Parser::if_statement`'s
`condition.evaluate() == EvaluateResult::Boolean(true)`. -/
def evaluateResultEq : EvaluateResult → EvaluateResult → Bool
  | .Boolean b1, .Boolean b2 => b1 == b2
  | .Number n1, .Number n2 => numberEq n1 n2
  | .String s1, .String s2 => s1 == s2
  | .Nil, .Nil => true
  | _, _ => false

/-- `src/ast.rs`: `enum AstNode`.  `If` stores the condition and the single
branch chosen by the parser (`exec_branch`), exactly as in the source. -/
inductive AstNode where
  | Binary (left : AstNode) (operator : String) (right : AstNode)
  | Boolean (b : Bool)
  | Group (inner : AstNode)
  | Nil
  | Number (n : Number)
  | String (s : String)
  | Unary (operator : Char) (operand : AstNode)
  | Print (expr : AstNode)
  | Variable (name : String) (value : Option AstNode)
  | Block (nodes : List AstNode)
  | If (condition : AstNode) (exec_branch : Option AstNode)
  | Or (left : AstNode) (right : AstNode)
  | And (left : AstNode) (right : AstNode)

/-- The pure operator dispatch inside `AstNode::evaluate_binary`
(`src/evaluating.rs` lines 71-91), after both operands have been
evaluated.  Operator strings match on `operator.as_str()`. -/
def evalBinaryOp (l : EvaluateResult) (op : String) (r : EvaluateResult) :
    Panics EvaluateResult :=
  match l, r with
  | .Number ln, .Number rn =>
    match op with
    | "+" => pmap .Number (numberAdd ln rn)
    | "-" => pmap .Number (numberSub ln rn)
    | "*" => pmap .Number (numberMul ln rn)
    | "/" => pmap .Number (numberDiv ln rn)
    | ">" => pmap .Boolean (numberGt ln rn)
    | "<" => pmap .Boolean (numberLt ln rn)
    | "==" => .ok (.Boolean (numberEq ln rn))
    | "!=" => .ok (.Boolean (!numberEq ln rn))
    | ">=" => pmap .Boolean (numberGe ln rn)
    | "<=" => pmap .Boolean (numberLe ln rn)
    | _ => .panicked "Invalid operator"
  | .String ls, .String rs =>
    match op with
    | "+" => .ok (.String (ls ++ rs))
    | "==" => .ok (.Boolean (ls == rs))
    | _ => .panicked "Invalid operator"
  | _, _ => .panicked "Invalid operands"

/-- The pure operator dispatch inside `AstNode::evaluate_unary`
(`src/evaluating.rs` lines 100-111). -/
def evalUnaryOp (op : Char) (v : EvaluateResult) : Panics EvaluateResult :=
  match v with
  | .Number n => if op = '-' then .ok (.Number (numberNeg n)) else .panicked "Invalid operator"
  | .Boolean b => if op = '!' then .ok (.Boolean (!b)) else .panicked "Invalid operator"
  | _ => .panicked "Invalid operand"

mutual

/-- `AstNode::evaluate` (`src/evaluating.rs` lines 6-64).  A panic anywhere
in a subevaluation aborts the whole evaluation (`.panicked`).  The bodies of
the private helpers `AstNode::evaluate_binary` (lines 66-95) and
`AstNode::evaluate_unary` (lines 97-115) are inlined into the `Binary` and
`Unary` arms: each helper re-matches `self` and is reachable only from the
corresponding arm, so the source's unreachable `"Invalid binary node"` /
`"Invalid unary node"` arms have no counterpart. -/
def evaluate : AstNode → Panics EvaluateResult
  | .Boolean v => .ok (.Boolean v)
  | .Number v => .ok (.Number v)
  | .String v => .ok (.String v)
  | .Nil => .ok .Nil
  | .Binary l op r =>
      match evaluate l with
      | .panicked m => .panicked m
      | .ok lv =>
        match evaluate r with
        | .panicked m => .panicked m
        | .ok rv => evalBinaryOp lv op rv
  | .Unary op operand =>
      match evaluate operand with
      | .panicked m => .panicked m
      | .ok v => evalUnaryOp op v
  | .Group node => evaluate node
  | .Print expr => evaluate expr
  | .Variable _ value =>
      match value with
      | some v => evaluate v
      | none => .ok .Nil
  | .Block nodes => evaluateBlock nodes .Nil
  | .If _ exec_branch =>
      match exec_branch with
      | some node => evaluate node
      | none => .ok .Nil
  | .Or l r =>
      match evaluate l with
      | .panicked m => .panicked m
      | .ok lv =>
        match lv with
        | .Boolean true => .ok (.Boolean true)
        | _ =>
          match evaluate r with
          | .panicked m => .panicked m
          | .ok rv =>
            match rv with
            | .Boolean v => .ok (.Boolean v)
            | _ => .panicked "Invalid right operand"
  | .And l r =>
      match evaluate l with
      | .panicked m => .panicked m
      | .ok lv =>
        match lv with
        | .Boolean false => .ok (.Boolean false)
        | _ =>
          match evaluate r with
          | .panicked m => .panicked m
          | .ok rv =>
            match rv with
            | .Boolean v => .ok (.Boolean v)
            | _ => .panicked "Invalid right operand"

/-- The `Self::Block` loop of `evaluate`: `result` starts as `Nil` and is
overwritten by each statement's value; a panic stops the loop. -/
def evaluateBlock : List AstNode → EvaluateResult → Panics EvaluateResult
  | [], result => .ok result
  | n :: rest, _ =>
      match evaluate n with
      | .panicked m => .panicked m
      | .ok r => evaluateBlock rest r

end

/-- `src/token.rs`: `enum KeyWord`. -/
inductive KeyWord where
  | And
  | Class
  | Else
  | False
  | Fun
  | For
  | If
  | Nil
  | Or
  | Print
  | Return
  | Super
  | This
  | True
  | Var
  | While
deriving DecidableEq

/-- `impl FromStr for KeyWord` (`src/token.rs` lines 279-303); the `Err`
case is only ever used as "not a keyword" by the lexer, so `Option`
suffices. -/
def kwFromStr (s : String) : Option KeyWord :=
  if s = "and" then some .And
  else if s = "class" then some .Class
  else if s = "else" then some .Else
  else if s = "false" then some .False
  else if s = "fun" then some .Fun
  else if s = "for" then some .For
  else if s = "if" then some .If
  else if s = "nil" then some .Nil
  else if s = "or" then some .Or
  else if s = "print" then some .Print
  else if s = "return" then some .Return
  else if s = "super" then some .Super
  else if s = "this" then some .This
  else if s = "true" then some .True
  else if s = "var" then some .Var
  else if s = "while" then some .While
  else none

/-- `impl Display for KeyWord` (`src/token.rs` lines 305-330). -/
def kwToString : KeyWord → String
  | .And => "and"
  | .Class => "class"
  | .Else => "else"
  | .False => "false"
  | .Fun => "fun"
  | .For => "for"
  | .If => "if"
  | .Nil => "nil"
  | .Or => "or"
  | .Print => "print"
  | .Return => "return"
  | .Super => "super"
  | .This => "this"
  | .True => "true"
  | .Var => "var"
  | .While => "while"

/-- `src/token.rs`: `enum TokenType`. -/
inductive TokenType where
  | LeftParen
  | RightParen
  | LeftBrace
  | RightBrace
  | Comma
  | Dot
  | Minus
  | Plus
  | Semicolon
  | Star
  | Bang
  | BangEqual
  | Equal
  | EqualEqual
  | Greater
  | GreaterEqual
  | Less
  | LessEqual
  | Slash
  | Space
  | Tab
  | NewLine
  | String (s : String)
  | Number (n : Number)
  | Identifier (s : String)
  | KeyWord (k : KeyWord)
deriving DecidableEq

/-- `impl PartialEq for TokenType` (`src/token.rs` lines 40-75): structural,
except that the `Number` payloads compare through `Number`'s `PartialEq`
(mixed kinds compare unequal). -/
def tokenTypeEq : TokenType → TokenType → Bool
  | .String s1, .String s2 => s1 == s2
  | .Number n1, .Number n2 => numberEq n1 n2
  | .Identifier s1, .Identifier s2 => s1 == s2
  | .KeyWord k1, .KeyWord k2 => k1 == k2
  | .String _, _ => false
  | _, .String _ => false
  | .Number _, _ => false
  | _, .Number _ => false
  | .Identifier _, _ => false
  | _, .Identifier _ => false
  | .KeyWord _, _ => false
  | _, .KeyWord _ => false
  | t1, t2 => t1 == t2

/-- `TokenType::from_char` (`src/token.rs` lines 78-100). -/
def fromChar (c : Char) : Except String TokenType :=
  if c = '(' then .ok .LeftParen
  else if c = ')' then .ok .RightParen
  else if c = '{' then .ok .LeftBrace
  else if c = '}' then .ok .RightBrace
  else if c = ',' then .ok .Comma
  else if c = '.' then .ok .Dot
  else if c = '-' then .ok .Minus
  else if c = '+' then .ok .Plus
  else if c = ';' then .ok .Semicolon
  else if c = '*' then .ok .Star
  else if c = '!' then .ok .Bang
  else if c = '=' then .ok .Equal
  else if c = '>' then .ok .Greater
  else if c = '<' then .ok .Less
  else if c = '/' then .ok .Slash
  else if c = ' ' then .ok .Space
  else if c = '\t' then .ok .Tab
  else if c = '\n' then .ok .NewLine
  else .error ("Invalid token: " ++ String.mk [c])

/-- Display of the `Rat` stand-in for an `f64` value.  Rust renders `f64`
with its shortest-roundtrip decimal formatting, which is not modelled (no
theorem below depends on the display of a `Float`). -/
def floatDisplay (q : Rat) : String :=
  toString q.num ++ "/" ++ toString q.den

/-- `impl Display for Number` (`src/token.rs` lines 234-244). -/
def numberDisplay : Number → String
  | .Integer i => toString i
  | .Float q => floatDisplay q

/-- `impl Display for TokenType` (`src/token.rs` lines 107-142): the
display form of each token.  Note that a `String` token displays its raw
text without the quotes it was written with. -/
def display : TokenType → String
  | .LeftParen => "("
  | .RightParen => ")"
  | .LeftBrace => "\x7b"
  | .RightBrace => "\x7d"
  | .Comma => ","
  | .Dot => "."
  | .Minus => "-"
  | .Plus => "+"
  | .Semicolon => ";"
  | .Star => "*"
  | .Bang => "!"
  | .BangEqual => "!="
  | .Equal => "="
  | .EqualEqual => "=="
  | .Greater => ">"
  | .GreaterEqual => ">="
  | .Less => "<"
  | .LessEqual => "<="
  | .Slash => "/"
  | .Space => " "
  | .Tab => "\t"
  | .NewLine => "\n"
  | .String s => s
  | .Number n => numberDisplay n
  | .Identifier s => s
  | .KeyWord k => kwToString k

/-- The string-literal loop of `lexing` (`src/lexing.rs` lines 69-86):
scan up to the closing quote; `none` when the input ends first. -/
def scanString : List Char → Option (List Char × List Char)
  | [] => none
  | c :: rest =>
    if c = '"' then some ([], rest)
    else
      match scanString rest with
      | some (lit, r) => some (c :: lit, r)
      | none => none

/-- The number loop of `lexing` (`src/lexing.rs` lines 87-104): collect
digits and at most one dot; a second dot is the `DoubleDot` failure.
Returns the collected run, whether a dot was seen, and the rest. -/
def scanNumber : List Char → Bool → Except String (List Char × Bool × List Char)
  | [], isFloat => .ok ([], isFloat, [])
  | c :: cs, isFloat =>
    if c.isDigit then
      match scanNumber cs isFloat with
      | .ok (run, fl, rest) => .ok (c :: run, fl, rest)
      | .error e => .error e
    else if c = '.' then
      if isFloat then .error "DoubleDot"
      else
        match scanNumber cs true with
        | .ok (run, fl, rest) => .ok (c :: run, fl, rest)
        | .error e => .error e
    else .ok ([], isFloat, c :: cs)

/-- Value of a run of ASCII digits. -/
def digitsToNat (ds : List Char) : Nat :=
  ds.foldl (fun a c => 10 * a + (c.toNat - 48)) 0

/-- Decimal interpretation of a lexed float run (digits, one optional dot,
digits) as the `Rat` stand-in for Rust's `str::parse::<f64>`. -/
def parseF64 (run : List Char) : Rat :=
  let ip := run.takeWhile (fun c => c != '.')
  let fp := (run.dropWhile (fun c => c != '.')).drop 1
  (digitsToNat ip : Rat) + (digitsToNat fp : Rat) / ((10 : Rat) ^ fp.length)

/-- Rust identifier-continuation predicate
(`c.is_ascii_alphanumeric() || c == '_'`, `src/lexing.rs` line 114). -/
def idChar (c : Char) : Bool :=
  c.isAlphanum || c = '_'

/-- Rust identifier-start predicate
(`c.is_ascii_alphabetic() || c == '_'`, `src/lexing.rs` line 111). -/
def identStart (c : Char) : Bool :=
  c.isAlpha || c = '_'

/-- Largest `i64` value: `str::parse::<i64>` fails (with the anyhow context
message "Parse Error") on a digit run exceeding it. -/
def i64Max : Nat := 9223372036854775807

/-- `iter.peek() == Some(c)` one-character lookahead. -/
def headEq (cs : List Char) (c : Char) : Bool :=
  match cs with
  | x :: _ => x == c
  | [] => false

/-- `vec.push(tok)` followed by the remainder of the lexer loop: prepend
one token, propagating a later failure (which discards the vector). -/
def consTok (t : TokenType) : Except String (List TokenType) → Except String (List TokenType)
  | .ok ts => .ok (t :: ts)
  | .error e => .error e

/-- Keyword-or-identifier token for a completed identifier run
(`src/lexing.rs` lines 121-125). -/
def idTok (run : List Char) : TokenType :=
  match kwFromStr (String.mk run) with
  | some k => .KeyWord k
  | none => .Identifier (String.mk run)

/-- Number token for a completed digit/dot run (`src/lexing.rs` lines
105-109): a float run parses as `f64` (the `Rat` stand-in), an integer run
parses as `i64`, failing with the context message "Parse Error" beyond
`i64::MAX`. -/
def numTok (run : List Char) (isFloat : Bool) : Except String TokenType :=
  if isFloat then .ok (.Number (.Float (parseF64 run)))
  else if digitsToNat run ≤ i64Max then .ok (.Number (.Integer (digitsToNat run)))
  else .error "Parse Error"

/-- The character loop of `lexing` (`src/lexing.rs` lines 12-144), fuel
indexed so that recursion is structural (every iteration of the source loop
consumes at least one character, so `length + 1` fuel always suffices — see
`lexing` below).  Arms appear in source order; the two-character operators
use the `iter.peek()` lookahead (`headEq`), a line comment drops characters
up to (not including) the next newline and produces no token. -/
def lexRun : Nat → List Char → Except String (List TokenType)
  | _, [] => .ok []
  | 0, _ :: _ => .error "lexer fuel exhausted"
  | fuel + 1, c :: cs =>
    if c = '=' then
      if headEq cs '=' then consTok .EqualEqual (lexRun fuel cs.tail)
      else consTok .Equal (lexRun fuel cs)
    else if c = '!' then
      if headEq cs '=' then consTok .BangEqual (lexRun fuel cs.tail)
      else consTok .Bang (lexRun fuel cs)
    else if c = '>' then
      if headEq cs '=' then consTok .GreaterEqual (lexRun fuel cs.tail)
      else consTok .Greater (lexRun fuel cs)
    else if c = '<' then
      if headEq cs '=' then consTok .LessEqual (lexRun fuel cs.tail)
      else consTok .Less (lexRun fuel cs)
    else if c = '/' then
      if headEq cs '/' then lexRun fuel (cs.tail.dropWhile (fun x => x != '\n'))
      else consTok .Slash (lexRun fuel cs)
    else if c = '"' then
      match scanString cs with
      | none => .error "UnterminatedString"
      | some (lit, rest) => consTok (.String (String.mk lit)) (lexRun fuel rest)
    else if c.isDigit then
      match scanNumber (c :: cs) false with
      | .error e => .error e
      | .ok (run, isFloat, rest) =>
        match numTok run isFloat with
        | .error e => .error e
        | .ok t => consTok t (lexRun fuel rest)
    else if identStart c then
      consTok (idTok ((c :: cs).takeWhile idChar)) (lexRun fuel ((c :: cs).dropWhile idChar))
    else if c = ' ' then consTok .Space (lexRun fuel cs)
    else if c = '\n' then consTok .NewLine (lexRun fuel cs)
    else if c = '\t' then consTok .Tab (lexRun fuel cs)
    else
      match fromChar c with
      | .error _ => .error "Scan Error"
      | .ok t => consTok t (lexRun fuel cs)

/-- `lexing` (`src/lexing.rs` lines 7-146).  The source takes a file path
and reads it; reading the file is an external collaborator, so the model
takes the character content directly.  Each loop iteration consumes at
least one character, so `length + 1` fuel never runs out. -/
def lexing (content : List Char) : Except String (List TokenType) :=
  lexRun (content.length + 1) content

/-- Concatenation of the display forms of a token sequence, as characters
(re-joining, for the losslessness claim). -/
def tokensText (ts : List TokenType) : List Char :=
  (ts.map (fun t => (display t).data)).flatten

/-- Sources over which lexing is exactly lossless: no digits (number
literals re-format on display), no quotes (string literals drop their
quotes) and no `//` (comments are discarded). -/
def plainSrc : List Char → Bool
  | [] => true
  | c :: cs => !c.isDigit && c != '"' && !(c == '/' && headEq cs '/') && plainSrc cs

/-- Failure channel of the parser (`src/parsing.rs`): `err` models a
returned `anyhow` error (`bail`), `panicked` models a Rust panic reached
through a panicking operation (slice indexing, `Option::unwrap`, or a
panic inside `AstNode::evaluate` called from `Parser::if_statement`). -/
inductive Failure where
  | err (msg : String)
  | panicked (msg : String)
deriving DecidableEq

namespace Parser

/-- Rust `usize` `n - 1` in release profile: wraps to `2^64 - 1` at `n = 0`
(`self.tokens.len() - 1` in `peek`-adjacent code).  Only reachable with an
empty token list, which no claim exercises. -/
def usizeSub1 (n : Nat) : Nat :=
  if n = 0 then 2 ^ 64 - 1 else n - 1

/-- `struct Parser` (`src/parsing.rs` lines 34-38) together with the
`Scope` chain (lines 40-44): the chain `parent`-linked `Scope` structs are
represented as the list of their `vars` maps, innermost frame first; each
`HashMap<String, AstNode>` is an association list with unique keys. -/
structure ParserState where
  tokens : List TokenType
  current : Nat
  scope : List (List (String × AstNode))

/-- `HashMap::get` on one scope frame. -/
def lookupFrame : List (String × AstNode) → String → Option AstNode
  | [], _ => none
  | (k, v) :: rest, name => if k = name then some v else lookupFrame rest name

/-- `Scope::get_var` (`src/parsing.rs` lines 47-59): the local map first,
then the parent chain. -/
def scopeGetVar : List (List (String × AstNode)) → String → Option AstNode
  | [], _ => none
  | f :: rest, name =>
    match lookupFrame f name with
    | some v => some v
    | none => scopeGetVar rest name

/-- Replace the value bound to `name` inside one frame (the in-place
`*old_var = ...` write of `Scope::add_var`). -/
def frameSet (f : List (String × AstNode)) (name : String) (node : AstNode) :
    List (String × AstNode) :=
  f.map fun e => if e.1 = name then (e.1, node) else e

/-- Apply `frameSet` to the innermost frame that binds `name` (the frame
`Scope::get_var` finds the binding in). -/
def scopeSet : List (List (String × AstNode)) → String → AstNode →
    List (List (String × AstNode))
  | [], _, _ => []
  | f :: rest, name, node =>
    if (lookupFrame f name).isSome then frameSet f name node :: rest
    else f :: scopeSet rest name node

/-- `Scope::add_var` (`src/parsing.rs` lines 61-78): if `get_var` finds the
name anywhere on the chain the found binding is overwritten in place
(possibly in an enclosing scope); only otherwise is the variable inserted
into the current (innermost) scope. -/
def scopeAddVar (frames : List (List (String × AstNode))) (var : AstNode) :
    Except Failure (List (List (String × AstNode))) :=
  match var with
  | .Variable name value =>
    if (scopeGetVar frames name).isSome then
      .ok (scopeSet frames name (.Variable name value))
    else
      match frames with
      | f :: rest => .ok (((name, AstNode.Variable name value) :: f) :: rest)
      | [] => .ok [[(name, AstNode.Variable name value)]]
  | _ => .error (.err "var is not a AstNode::Variable")

/-- `Parser::add_var` applied to the parser state. -/
def addVar (st : ParserState) (var : AstNode) : Except Failure ParserState :=
  match scopeAddVar st.scope var with
  | .ok sc => .ok { st with scope := sc }
  | .error e => .error e

/-- `Scope::forward` + `Parser::forward_scope` (`src/parsing.rs` lines
87-91, 109-111): push a fresh empty scope whose parent is (a clone of) the
current chain. -/
def forwardScope (st : ParserState) : ParserState :=
  { st with scope := [] :: st.scope }

/-- `Scope::expire` + `Parser::expire_scope` (`src/parsing.rs` lines 80-85,
113-115): drop back to the parent scope; the root scope stays. -/
def expireScope (st : ParserState) : ParserState :=
  { st with scope :=
      match st.scope with
      | _ :: p :: rest => p :: rest
      | s => s }

/-- `Parser::peek` (`src/parsing.rs` lines 499-501): slice indexing, which
panics when out of bounds. -/
def peek (st : ParserState) : Except Failure TokenType :=
  match st.tokens[st.current]? with
  | some t => .ok t
  | none => .error (.panicked "index out of bounds")

/-- `Parser::next` (`src/parsing.rs` lines 503-508). -/
def next (st : ParserState) : Except Failure (Option TokenType) :=
  if st.current = usizeSub1 st.tokens.length then .ok none
  else
    match st.tokens[st.current + 1]? with
    | some t => .ok (some t)
    | none => .error (.panicked "index out of bounds")

/-- `Parser::forward` (`src/parsing.rs` lines 510-516): bails (by value) at
the last token. -/
def forward (st : ParserState) : Except Failure ParserState :=
  if st.current = usizeSub1 st.tokens.length then
    .error (.err "Already at the end of the tokens")
  else .ok { st with current := st.current + 1 }

/-- `let _ = self.forward();` — advance, swallowing the end-of-tokens
error (used at statement ends and in `primary`). -/
def ignoreForward (st : ParserState) : ParserState :=
  match forward st with
  | .ok st2 => st2
  | .error _ => st

/-- `"=".parse::<char>()` etc. in `Parser::unary`: a one-character string
parses to its character, anything else is an error. -/
def parseChar (s : String) : Except Failure Char :=
  match s.data with
  | [c] => .ok c
  | _ => .error (.err "char parse failed")

mutual

/-- `Parser::program` (`src/parsing.rs` lines 134-141).  All parser
functions take explicit fuel so the mutual recursion is structural; the
fuel chosen by `parse` below is always sufficient. -/
def program : Nat → ParserState → Except Failure (List AstNode × ParserState)
  | 0, _ => .error (.err "parser fuel exhausted")
  | fuel + 1, st => programLoop fuel [] st

/-- The `while self.current < self.tokens.len() - 1` loop of `program`. -/
def programLoop : Nat → List AstNode → ParserState →
    Except Failure (List AstNode × ParserState)
  | 0, _, _ => .error (.err "parser fuel exhausted")
  | fuel + 1, acc, st =>
    if st.current < usizeSub1 st.tokens.length then do
      let (node, st) ← declaration fuel st
      programLoop fuel (acc ++ [node]) st
    else .ok (acc, st)

/-- `Parser::declaration` (`src/parsing.rs` lines 143-150). -/
def declaration : Nat → ParserState → Except Failure (AstNode × ParserState)
  | 0, _ => .error (.err "parser fuel exhausted")
  | fuel + 1, st => do
    let t ← peek st
    match t with
    | .KeyWord .Var => var_declaration fuel st
    | _ => statement fuel st

/-- `Parser::var_declaration` (`src/parsing.rs` lines 152-191).  With an
initializer, `add_var` runs after the semicolon is consumed; without one,
`add_var` runs before the semicolon check — both orders as in the source. -/
def var_declaration : Nat → ParserState → Except Failure (AstNode × ParserState)
  | 0, _ => .error (.err "parser fuel exhausted")
  | fuel + 1, st => do
    let st ← forward st
    let t ← peek st
    match t with
    | .Identifier var_name => do
      let st ← forward st
      let pk ← peek st
      if tokenTypeEq pk .Equal then do
        let st ← forward st
        let (value, st) ← expression fuel st
        let pk2 ← peek st
        if tokenTypeEq pk2 .Semicolon then do
          let st := ignoreForward st
          let var := AstNode.Variable var_name (some value)
          let st ← addVar st var
          .ok (var, st)
        else .error (.err "Expected \x27;\x27 after expression in var declaration")
      else do
        let var := AstNode.Variable var_name none
        let st ← addVar st var
        let pk2 ← peek st
        if tokenTypeEq pk2 .Semicolon then .ok (var, ignoreForward st)
        else .error (.err "Expected \x27;\x27 after var declaration")
    | _ => .error (.err "Expected identifier after var")

/-- `Parser::statement` (`src/parsing.rs` lines 193-202). -/
def statement : Nat → ParserState → Except Failure (AstNode × ParserState)
  | 0, _ => .error (.err "parser fuel exhausted")
  | fuel + 1, st => do
    let t ← peek st
    match t with
    | .KeyWord .Print => print_statement fuel st
    | .LeftBrace => block fuel st
    | .KeyWord .If => if_statement fuel st
    | _ => expression fuel st

/-- `Parser::print_statement` (`src/parsing.rs` lines 204-212). -/
def print_statement : Nat → ParserState → Except Failure (AstNode × ParserState)
  | 0, _ => .error (.err "parser fuel exhausted")
  | fuel + 1, st => do
    let st ← forward st
    let (expr, st) ← expression fuel st
    let pk ← peek st
    if tokenTypeEq pk .Semicolon then .ok (AstNode.Print expr, ignoreForward st)
    else .error (.err "Expected \x27;\x27 after expression in print statement")

/-- `Parser::block` (`src/parsing.rs` lines 214-229): enters a child scope,
parses declarations until `}`, expires the scope (keeping any in-place
writes made to the parent frames). -/
def block : Nat → ParserState → Except Failure (AstNode × ParserState)
  | 0, _ => .error (.err "parser fuel exhausted")
  | fuel + 1, st => do
    let st ← forward st
    let st := forwardScope st
    let (nodes, st) ← blockLoop fuel [] st
    let st := expireScope st
    let pk ← peek st
    if tokenTypeEq pk .RightBrace then .ok (AstNode.Block nodes, ignoreForward st)
    else .error (.err "Expected \x27\x7d\x27 after block")

/-- The `while self.peek() != &TokenType::RightBrace` loop of `block`. -/
def blockLoop : Nat → List AstNode → ParserState →
    Except Failure (List AstNode × ParserState)
  | 0, _, _ => .error (.err "parser fuel exhausted")
  | fuel + 1, acc, st => do
    let pk ← peek st
    if tokenTypeEq pk .RightBrace then .ok (acc, st)
    else do
      let (n, st) ← declaration fuel st
      blockLoop fuel (acc ++ [n]) st

/-- `Parser::if_statement` (`src/parsing.rs` lines 231-270): the parser
evaluates the freshly parsed condition (for a debug print and again for the
branch decision — one evaluation here, see the header) and decides at parse
time which branch to keep; the other branch's tokens are skipped and not
retained in the AST. -/
def if_statement : Nat → ParserState → Except Failure (AstNode × ParserState)
  | 0, _ => .error (.err "parser fuel exhausted")
  | fuel + 1, st => do
    let st ← forward st
    let (condition, st) ← expression fuel st
    match evaluate condition with
    | .panicked m => .error (.panicked m)
    | .ok cv =>
      if evaluateResultEq cv (.Boolean true) then do
        let (branch, st) ← statement fuel st
        let pk ← peek st
        if tokenTypeEq pk (.KeyWord .Else) then do
          let st ← skipToRightBrace fuel st
          .ok (AstNode.If condition (some branch), ignoreForward st)
        else .ok (AstNode.If condition (some branch), st)
      else do
        let st ← skipToRightBrace fuel st
        let st ← forward st
        let pk ← peek st
        if tokenTypeEq pk (.KeyWord .Else) then do
          let st ← forward st
          let (branch, st) ← statement fuel st
          .ok (AstNode.If condition (some branch), st)
        else .ok (AstNode.If condition none, st)

/-- `while self.peek() != &TokenType::RightBrace { self.forward()?; }`
in `if_statement` (both the then-skip and else-skip loops). -/
def skipToRightBrace : Nat → ParserState → Except Failure ParserState
  | 0, _ => .error (.err "parser fuel exhausted")
  | fuel + 1, st => do
    let pk ← peek st
    if tokenTypeEq pk .RightBrace then .ok st
    else do
      let st ← forward st
      skipToRightBrace fuel st

/-- `Parser::expression` (`src/parsing.rs` lines 272-275). -/
def expression : Nat → ParserState → Except Failure (AstNode × ParserState)
  | 0, _ => .error (.err "parser fuel exhausted")
  | fuel + 1, st => assignment fuel st

/-- `Parser::assignment` (`src/parsing.rs` lines 277-311): one token of
lookahead after an identifier; `self.next().unwrap()` panics when the
identifier is the final token. -/
def assignment : Nat → ParserState → Except Failure (AstNode × ParserState)
  | 0, _ => .error (.err "parser fuel exhausted")
  | fuel + 1, st => do
    let t ← peek st
    match t with
    | .Identifier var_name =>
      if (scopeGetVar st.scope var_name).isSome then do
        let nt ← next st
        match nt with
        | none => .error (.panicked "called Option::unwrap on a None value")
        | some ntok =>
          if tokenTypeEq ntok .Equal then do
            let st ← forward st
            let st ← forward st
            let (value, st) ← assignment fuel st
            let var := AstNode.Variable var_name (some value)
            let st ← addVar st var
            let pk ← peek st
            if tokenTypeEq pk .Semicolon then do
              let nt2 ← next st
              match nt2 with
              | some _ => do
                let st ← forward st
                .ok (var, st)
              | none => .ok (var, st)
            else .error (.err "Expected \x27;\x27 after assignment")
          else logic_or fuel st
      else .error (.err ("Variable " ++ var_name ++ " not declared"))
    | _ => logic_or fuel st

/-- `Parser::logic_or` (`src/parsing.rs` lines 313-325). -/
def logic_or : Nat → ParserState → Except Failure (AstNode × ParserState)
  | 0, _ => .error (.err "parser fuel exhausted")
  | fuel + 1, st => do
    let (left, st) ← logic_and fuel st
    logicOrLoop fuel left st

/-- The `while self.peek() == Or` loop of `logic_or`. -/
def logicOrLoop : Nat → AstNode → ParserState →
    Except Failure (AstNode × ParserState)
  | 0, _, _ => .error (.err "parser fuel exhausted")
  | fuel + 1, left, st => do
    let pk ← peek st
    if tokenTypeEq pk (.KeyWord .Or) then do
      let st ← forward st
      let (right, st) ← logic_and fuel st
      logicOrLoop fuel (.Or left right) st
    else .ok (left, st)

/-- `Parser::logic_and` (`src/parsing.rs` lines 327-339). -/
def logic_and : Nat → ParserState → Except Failure (AstNode × ParserState)
  | 0, _ => .error (.err "parser fuel exhausted")
  | fuel + 1, st => do
    let (left, st) ← equality fuel st
    logicAndLoop fuel left st

/-- The `while self.peek() == And` loop of `logic_and`. -/
def logicAndLoop : Nat → AstNode → ParserState →
    Except Failure (AstNode × ParserState)
  | 0, _, _ => .error (.err "parser fuel exhausted")
  | fuel + 1, left, st => do
    let pk ← peek st
    if tokenTypeEq pk (.KeyWord .And) then do
      let st ← forward st
      let (right, st) ← equality fuel st
      logicAndLoop fuel (.And left right) st
    else .ok (left, st)

/-- `Parser::equality` (`src/parsing.rs` lines 341-362). -/
def equality : Nat → ParserState → Except Failure (AstNode × ParserState)
  | 0, _ => .error (.err "parser fuel exhausted")
  | fuel + 1, st => do
    let (node, st) ← comparison fuel st
    equalityLoop fuel node st

/-- The `loop` of `equality`: consumes `!=` and `==`. -/
def equalityLoop : Nat → AstNode → ParserState →
    Except Failure (AstNode × ParserState)
  | 0, _, _ => .error (.err "parser fuel exhausted")
  | fuel + 1, node, st => do
    let t ← peek st
    if tokenTypeEq t .BangEqual || tokenTypeEq t .EqualEqual then do
      let op := display t
      let st ← forward st
      let (right, st) ← comparison fuel st
      equalityLoop fuel (.Binary node op right) st
    else .ok (node, st)

/-- `Parser::comparison` (`src/parsing.rs` lines 364-387). -/
def comparison : Nat → ParserState → Except Failure (AstNode × ParserState)
  | 0, _ => .error (.err "parser fuel exhausted")
  | fuel + 1, st => do
    let (node, st) ← term fuel st
    comparisonLoop fuel node st

/-- The `while` loop of `comparison`.  Its condition (source lines 369-375)
consumes `>`, `>=`, `<`, `<=` — and also `!=` and `==`, duplicating the
equality operators at the comparison level. -/
def comparisonLoop : Nat → AstNode → ParserState →
    Except Failure (AstNode × ParserState)
  | 0, _, _ => .error (.err "parser fuel exhausted")
  | fuel + 1, node, st => do
    let t ← peek st
    if tokenTypeEq t .Greater || tokenTypeEq t .GreaterEqual ||
        tokenTypeEq t .Less || tokenTypeEq t .LessEqual ||
        tokenTypeEq t .BangEqual || tokenTypeEq t .EqualEqual then do
      let op := display t
      let st ← forward st
      let (right, st) ← term fuel st
      comparisonLoop fuel (.Binary node op right) st
    else .ok (node, st)

/-- `Parser::term` (`src/parsing.rs` lines 389-409). -/
def term : Nat → ParserState → Except Failure (AstNode × ParserState)
  | 0, _ => .error (.err "parser fuel exhausted")
  | fuel + 1, st => do
    let (node, st) ← factor fuel st
    termLoop fuel node st

/-- The `loop` of `term`: consumes `-` and `+`. -/
def termLoop : Nat → AstNode → ParserState →
    Except Failure (AstNode × ParserState)
  | 0, _, _ => .error (.err "parser fuel exhausted")
  | fuel + 1, node, st => do
    let t ← peek st
    if tokenTypeEq t .Minus || tokenTypeEq t .Plus then do
      let op := display t
      let st ← forward st
      let (right, st) ← factor fuel st
      termLoop fuel (.Binary node op right) st
    else .ok (node, st)

/-- `Parser::factor` (`src/parsing.rs` lines 411-434). -/
def factor : Nat → ParserState → Except Failure (AstNode × ParserState)
  | 0, _ => .error (.err "parser fuel exhausted")
  | fuel + 1, st => do
    let (left, st) ← unary fuel st
    factorLoop fuel left st

/-- The `loop` of `factor`: consumes `/` and `*`. -/
def factorLoop : Nat → AstNode → ParserState →
    Except Failure (AstNode × ParserState)
  | 0, _, _ => .error (.err "parser fuel exhausted")
  | fuel + 1, left, st => do
    let t ← peek st
    if tokenTypeEq t .Slash || tokenTypeEq t .Star then do
      let op := display t
      let st ← forward st
      let (right, st) ← unary fuel st
      factorLoop fuel (.Binary left op right) st
    else .ok (left, st)

/-- `Parser::unary` (`src/parsing.rs` lines 436-450). -/
def unary : Nat → ParserState → Except Failure (AstNode × ParserState)
  | 0, _ => .error (.err "parser fuel exhausted")
  | fuel + 1, st => do
    let t ← peek st
    if tokenTypeEq t .Bang || tokenTypeEq t .Minus then do
      let op := display t
      let st ← forward st
      let (operand, st) ← unary fuel st
      let c ← parseChar op
      .ok (AstNode.Unary c operand, st)
    else primary fuel st

/-- `Parser::primary` (`src/parsing.rs` lines 452-497): literals, groups,
and identifier references, which are eagerly replaced by a clone of the
variable's current node from the scope chain.  The trailing
`match self.forward()` swallows the end-of-tokens error. -/
def primary : Nat → ParserState → Except Failure (AstNode × ParserState)
  | 0, _ => .error (.err "parser fuel exhausted")
  | fuel + 1, st => do
    let t ← peek st
    match t with
    | .Number n => .ok (AstNode.Number n, ignoreForward st)
    | .String s => .ok (AstNode.String s, ignoreForward st)
    | .KeyWord kw =>
      match kw with
      | .True => .ok (AstNode.Boolean true, ignoreForward st)
      | .False => .ok (AstNode.Boolean false, ignoreForward st)
      | .Nil => .ok (AstNode.Nil, ignoreForward st)
      | _ => .error (.err "Unexpected keyword")
    | .LeftParen => do
      let st ← forward st
      let (expr, st) ← expression fuel st
      let pk ← peek st
      if tokenTypeEq pk .RightParen then .ok (AstNode.Group expr, ignoreForward st)
      else .error (.err "Expected \x27)\x27 after expression")
    | .RightParen => .error (.err "Unexpected \x27)\x27 in parsing primary")
    | .Identifier var_name =>
      match scopeGetVar st.scope var_name with
      | some var => .ok (var, ignoreForward st)
      | none => .error (.err ("Variable " ++ var_name ++ " not declared"))
    | _ => .error (.err "Expected expression in parsing primary")

end

/-- Fuel that is always sufficient for `parse`: every parser call either
consumes a token before recursing or descends through the fixed-depth
grammar (bounded by a constant per token). -/
def parseFuel (tokens : List TokenType) : Nat :=
  50 * tokens.length + 50

/-- `Parser::new` + `Parser::parse` (`src/parsing.rs` lines 119-132): parse
a (whitespace-filtered) token sequence starting from `current = 0` and one
empty root scope. -/
def parse (tokens : List TokenType) : Except Failure (List AstNode) :=
  match program (parseFuel tokens) { tokens := tokens, current := 0, scope := [[]] } with
  | .ok (nodes, _) => .ok nodes
  | .error e => .error e

end Parser

/-- Is a runtime value a boolean?  (`if let EvaluateResult::Boolean(v)`
pattern tests in the `Or`/`And` arms of `evaluate`.) -/
def isBooleanResult : EvaluateResult → Bool
  | .Boolean _ => true
  | _ => false

example : evaluate (.Block [.Number (.Integer 1), .Number (.Integer 2)]) =
    .ok (.Number (.Integer 2)) := rfl

example : lexing "var x = 10;".data =
    .ok [.KeyWord .Var, .Space, .Identifier "x", .Space, .Equal, .Space,
         .Number (.Integer 10), .Semicolon] := rfl

example : lexing "1.5 <= 2 // c".data =
    .ok [.Number (.Float (parseF64 [ '1', '.', '5' ])), .Space, .LessEqual, .Space,
         .Number (.Integer 2), .Space] := rfl

example : plainSrc "x = y; // c".data = false := by decide

example : Parser.parse [.Number (.Integer 1), .Plus, .Number (.Integer 2),
    .Star, .Number (.Integer 3), .Semicolon] =
    .ok [.Binary (.Number (.Integer 1)) "+"
          (.Binary (.Number (.Integer 2)) "*" (.Number (.Integer 3)))] := rfl

example : Parser.parse [.KeyWord .If, .KeyWord .True, .LeftBrace,
    .Number (.Integer 1), .RightBrace, .KeyWord .Else, .LeftBrace,
    .Number (.Integer 2), .RightBrace] =
    .ok [.If (.Boolean true) (some (.Block [.Number (.Integer 1)]))] := rfl

set_option maxHeartbeats 2000000

/-- Claim C1 (code_bug — the code evaluated at the failing inputs): the
claim says the `if` condition is evaluated when the `if` node is executed,
both branches are retained as unevaluated subtrees, and the branch is
selected once per execution.  The code instead: (1) for
`if false { 1 } else { 2 }` the parser emits an `If` node that retains only
the else branch — the then branch `1` occurs nowhere in the AST; (2)
executing that node runs the stored branch even though its condition is
`false`, i.e. the evaluator ignores the condition; (3) for
`if - true { 1 }` parsing itself aborts inside `AstNode::evaluate`, showing
the condition is evaluated during parsing, not execution. -/
theorem c1_if_condition_evaluated_at_parse_time :
    Parser.parse [.KeyWord .If, .KeyWord .False, .LeftBrace,
        .Number (.Integer 1), .RightBrace, .KeyWord .Else, .LeftBrace,
        .Number (.Integer 2), .RightBrace] =
      .ok [.If (.Boolean false) (some (.Block [.Number (.Integer 2)]))] ∧
    evaluate (.If (.Boolean false) (some (.Block [.Number (.Integer 2)]))) =
      .ok (.Number (.Integer 2)) ∧
    Parser.parse [.KeyWord .If, .Minus, .KeyWord .True, .LeftBrace,
        .Number (.Integer 1), .RightBrace] =
      .error (.panicked "Invalid operator") :=
  ⟨rfl, rfl, rfl⟩

/-- Claim C2 (code_bug — the code evaluated at the failing input): for
`var x = 1; { var x = 2; print x; } print x;` the claim (and the spec's
testable property) expects the inner print to yield 2 and the outer print
to yield 1.  The code's `Scope::add_var` overwrites the binding found by
the chain-walking `get_var` in place — here the binding in the enclosing
scope — so the outer binding becomes 2: the parse substitutes
`Variable x = 2` into the outer `print` as well, and evaluating the third
top-level statement yields 2, not 1. -/
theorem c2_inner_var_overwrites_enclosing_binding :
    Parser.parse [.KeyWord .Var, .Identifier "x", .Equal,
        .Number (.Integer 1), .Semicolon,
        .LeftBrace, .KeyWord .Var, .Identifier "x", .Equal, .Number (.Integer 2),
        .Semicolon, .KeyWord .Print, .Identifier "x", .Semicolon, .RightBrace,
        .KeyWord .Print, .Identifier "x", .Semicolon] =
      .ok [.Variable "x" (some (.Number (.Integer 1))),
           .Block [.Variable "x" (some (.Number (.Integer 2))),
                   .Print (.Variable "x" (some (.Number (.Integer 2))))],
           .Print (.Variable "x" (some (.Number (.Integer 2))))] ∧
    evaluate (.Print (.Variable "x" (some (.Number (.Integer 2))))) =
      .ok (.Number (.Integer 2)) :=
  ⟨rfl, rfl⟩

/-- Claim C3 (code_bug — the code evaluated at the failing input, for all
number payloads): the claim (and the grammar comment in `src/parsing.rs`
lines 27-28) says `==`/`!=` are consumed only at the equality level, so
`A == B < C` parses as `Binary(==, A, Binary(<, B, C))`.  The `while`
condition of `Parser::comparison` also consumes `BangEqual`/`EqualEqual`,
so the parser actually produces `Binary(<, Binary(==, A, B), C)`. -/
theorem c3_equality_operators_consumed_in_comparison (a b c : Number) :
    Parser.parse [.Number a, .EqualEqual, .Number b, .Less, .Number c] =
      .ok [.Binary (.Binary (.Number a) "==" (.Number b)) "<" (.Number c)] :=
  rfl

/-- Claim C4 counterexample: evaluating `==` on the mixed pair
`Integer 1`, `Float 2.0` yields `Boolean false` (and `!=` yields
`Boolean true`) — a boolean result, not a runtime failure, refuting "no
comparison of an Integer with a Float yields a boolean result". -/
theorem c4_mixed_equality_counterexample :
    evaluate (.Binary (.Number (.Integer 1)) "==" (.Number (.Float 2))) =
      .ok (.Boolean false) ∧
    evaluate (.Binary (.Number (.Integer 1)) "!=" (.Number (.Float 2))) =
      .ok (.Boolean true) :=
  ⟨rfl, rfl⟩

/-- Claim C4 as amended: on a mixed pair (either order) the relational
operators `>`, `<`, `>=`, `<=` abort with the
"Cannot compare integer and float" panic of `Number`'s `PartialOrd`;
but `==` yields `Boolean false` and `!=` yields `Boolean true`, because
`Number`'s `PartialEq` returns `false` for mixed kinds. -/
theorem c4_mixed_comparison_amended (i : Int) (q : Rat) :
    evaluate (.Binary (.Number (.Integer i)) ">" (.Number (.Float q))) =
      .panicked "Cannot compare integer and float" ∧
    evaluate (.Binary (.Number (.Integer i)) "<" (.Number (.Float q))) =
      .panicked "Cannot compare integer and float" ∧
    evaluate (.Binary (.Number (.Integer i)) ">=" (.Number (.Float q))) =
      .panicked "Cannot compare integer and float" ∧
    evaluate (.Binary (.Number (.Integer i)) "<=" (.Number (.Float q))) =
      .panicked "Cannot compare integer and float" ∧
    evaluate (.Binary (.Number (.Float q)) ">" (.Number (.Integer i))) =
      .panicked "Cannot compare integer and float" ∧
    evaluate (.Binary (.Number (.Float q)) "<" (.Number (.Integer i))) =
      .panicked "Cannot compare integer and float" ∧
    evaluate (.Binary (.Number (.Float q)) ">=" (.Number (.Integer i))) =
      .panicked "Cannot compare integer and float" ∧
    evaluate (.Binary (.Number (.Float q)) "<=" (.Number (.Integer i))) =
      .panicked "Cannot compare integer and float" ∧
    evaluate (.Binary (.Number (.Integer i)) "==" (.Number (.Float q))) =
      .ok (.Boolean false) ∧
    evaluate (.Binary (.Number (.Float q)) "==" (.Number (.Integer i))) =
      .ok (.Boolean false) ∧
    evaluate (.Binary (.Number (.Integer i)) "!=" (.Number (.Float q))) =
      .ok (.Boolean true) ∧
    evaluate (.Binary (.Number (.Float q)) "!=" (.Number (.Integer i))) =
      .ok (.Boolean true) :=
  ⟨rfl, rfl, rfl, rfl, rfl, rfl, rfl, rfl, rfl, rfl, rfl, rfl⟩

/-- Claim C5 counterexample: evaluating `Integer 1 + Float 2.0` does not
return an `EvalError` value — the evaluator has no error-return channel at
all (`evaluate` returns a bare `EvaluateResult` in the source) and the
failure is a process-aborting panic. -/
theorem c5_mixed_add_counterexample :
    evaluate (.Binary (.Number (.Integer 1)) "+" (.Number (.Float 2))) =
      .panicked "Cannot add integer and float" :=
  rfl

/-- Claim C5 as amended: arithmetic on a mixed pair (either order, any
payloads) always fails — by a panic that aborts evaluation, not by a
returned error value — and never coerces one kind to the other. -/
theorem c5_mixed_arithmetic_amended (i : Int) (q : Rat) :
    evaluate (.Binary (.Number (.Integer i)) "+" (.Number (.Float q))) =
      .panicked "Cannot add integer and float" ∧
    evaluate (.Binary (.Number (.Float q)) "+" (.Number (.Integer i))) =
      .panicked "Cannot add integer and float" ∧
    evaluate (.Binary (.Number (.Integer i)) "-" (.Number (.Float q))) =
      .panicked "Cannot subtract integer and float" ∧
    evaluate (.Binary (.Number (.Float q)) "-" (.Number (.Integer i))) =
      .panicked "Cannot subtract integer and float" ∧
    evaluate (.Binary (.Number (.Integer i)) "*" (.Number (.Float q))) =
      .panicked "Cannot multiply integer and float" ∧
    evaluate (.Binary (.Number (.Float q)) "*" (.Number (.Integer i))) =
      .panicked "Cannot multiply integer and float" ∧
    evaluate (.Binary (.Number (.Integer i)) "/" (.Number (.Float q))) =
      .panicked "Cannot divide integer and float" ∧
    evaluate (.Binary (.Number (.Float q)) "/" (.Number (.Integer i))) =
      .panicked "Cannot divide integer and float" :=
  ⟨rfl, rfl, rfl, rfl, rfl, rfl, rfl, rfl⟩

/-- Claim C6 counterexample: an `Or` whose left operand evaluates to the
non-boolean `Number 1` does not fail — it yields the right operand's
boolean (and likewise for `And`), refuting "a non-boolean operand to a
logical connective is an error, for the left operand as well". -/
theorem c6_nonboolean_left_counterexample :
    evaluate (.Or (.Number (.Integer 1)) (.Boolean true)) = .ok (.Boolean true) ∧
    evaluate (.And (.Number (.Integer 1)) (.Boolean false)) = .ok (.Boolean false) :=
  ⟨rfl, rfl⟩

/-- Claim C6 as amended: a non-boolean left operand of `Or`/`And` is
silently skipped (it can neither short-circuit nor fail); the connective
then yields the right operand's boolean value, and evaluation aborts (with
the "Invalid right operand" panic) only when the right operand is also
non-boolean. -/
theorem c6_logical_left_amended :
    (∀ (l r : AstNode) (lv : EvaluateResult) (b : Bool),
      evaluate l = .ok lv → isBooleanResult lv = false →
      evaluate r = .ok (.Boolean b) →
      evaluate (.Or l r) = .ok (.Boolean b) ∧
      evaluate (.And l r) = .ok (.Boolean b)) ∧
    (∀ (l r : AstNode) (lv rv : EvaluateResult),
      evaluate l = .ok lv → isBooleanResult lv = false →
      evaluate r = .ok rv → isBooleanResult rv = false →
      evaluate (.Or l r) = .panicked "Invalid right operand" ∧
      evaluate (.And l r) = .panicked "Invalid right operand") := by
  constructor
  · intro l r lv b hl hlv hr
    cases lv with
    | Boolean b2 => simp [isBooleanResult] at hlv
    | Number n => exact ⟨by simp [evaluate, hl, hr], by simp [evaluate, hl, hr]⟩
    | String s => exact ⟨by simp [evaluate, hl, hr], by simp [evaluate, hl, hr]⟩
    | Nil => exact ⟨by simp [evaluate, hl, hr], by simp [evaluate, hl, hr]⟩
  · intro l r lv rv hl hlv hr hrv
    cases lv with
    | Boolean b2 => simp [isBooleanResult] at hlv
    | Number n =>
      cases rv with
      | Boolean b2 => simp [isBooleanResult] at hrv
      | Number n2 => exact ⟨by simp [evaluate, hl, hr], by simp [evaluate, hl, hr]⟩
      | String s2 => exact ⟨by simp [evaluate, hl, hr], by simp [evaluate, hl, hr]⟩
      | Nil => exact ⟨by simp [evaluate, hl, hr], by simp [evaluate, hl, hr]⟩
    | String s =>
      cases rv with
      | Boolean b2 => simp [isBooleanResult] at hrv
      | Number n2 => exact ⟨by simp [evaluate, hl, hr], by simp [evaluate, hl, hr]⟩
      | String s2 => exact ⟨by simp [evaluate, hl, hr], by simp [evaluate, hl, hr]⟩
      | Nil => exact ⟨by simp [evaluate, hl, hr], by simp [evaluate, hl, hr]⟩
    | Nil =>
      cases rv with
      | Boolean b2 => simp [isBooleanResult] at hrv
      | Number n2 => exact ⟨by simp [evaluate, hl, hr], by simp [evaluate, hl, hr]⟩
      | String s2 => exact ⟨by simp [evaluate, hl, hr], by simp [evaluate, hl, hr]⟩
      | Nil => exact ⟨by simp [evaluate, hl, hr], by simp [evaluate, hl, hr]⟩

/-- Witness for the amended Claim C6 theorem at concrete inputs: a `String`
left operand is skipped and the right operand decides the result; a
non-boolean right operand aborts. -/
theorem c6_logical_left_witness :
    evaluate (.Or (.String "s") (.Boolean true)) = .ok (.Boolean true) ∧
    evaluate (.And (.String "s") (.Boolean true)) = .ok (.Boolean true) ∧
    evaluate (.Or (.Number (.Integer 3)) .Nil) = .panicked "Invalid right operand" :=
  ⟨(c6_logical_left_amended.1 (.String "s") (.Boolean true) (.String "s") true rfl rfl rfl).1,
   (c6_logical_left_amended.1 (.String "s") (.Boolean true) (.String "s") true rfl rfl rfl).2,
   (c6_logical_left_amended.2 (.Number (.Integer 3)) .Nil (.Number (.Integer 3)) .Nil
      rfl rfl rfl rfl).1⟩

/-- Claim C7 counterexample: an evaluation failure (here `!` applied to a
number — an operator undefined for the operand's kind) is a
process-aborting panic, not a discriminated `EvalError` value returned to
the caller: the source's `evaluate` returns a bare `EvaluateResult` with no
error channel. -/
theorem c7_eval_failure_aborts_counterexample :
    evaluate (.Unary '!' (.Number (.Integer 1))) = .panicked "Invalid operator" :=
  rfl

/-- Claim C7 as amended: lexing reports failures by value (an `anyhow`
error, not a dedicated `LexError` type; the lexer loop has no panicking
operation, so its returned `Result` is its only failure channel); parsing
reports grammar failures by value as `anyhow` errors but is not
abort-free — the parse-time condition evaluation of `if_statement` and the
`next().unwrap()` lookahead of `assignment` can panic, as the third
conjunct shows on `var x; x = x` (an assigned identifier as final token);
and evaluation never reports a failure by value at all: for every node the
outcome is either a result value or an aborting panic (there is no error
value — the source `evaluate` returns a bare `EvaluateResult`), and each
kind of evaluation failure (kind mismatch, operator undefined for the
operand kind, non-boolean right operand of a logical connective) is such a
panic. -/
theorem c7_failure_reporting_amended :
    lexing [ '"', 'a' ] = .error "UnterminatedString" ∧
    Parser.parse [.RightParen, .Semicolon] =
      .error (.err "Unexpected \x27)\x27 in parsing primary") ∧
    Parser.parse [.KeyWord .Var, .Identifier "x", .Semicolon,
      .Identifier "x", .Equal, .Identifier "x"] =
      .error (.panicked "called Option::unwrap on a None value") ∧
    (∀ n : AstNode, (∃ r, evaluate n = .ok r) ∨ (∃ m, evaluate n = .panicked m)) ∧
    evaluate (.Binary (.String "a") "+" (.Number (.Integer 1))) =
      .panicked "Invalid operands" ∧
    evaluate (.Binary (.String "a") "-" (.String "b")) =
      .panicked "Invalid operator" ∧
    evaluate (.Or (.Boolean false) (.String "a")) =
      .panicked "Invalid right operand" := by
  refine ⟨rfl, rfl, rfl, ?_, rfl, rfl, rfl⟩
  intro n
  cases h : evaluate n with
  | ok r => exact Or.inl ⟨r, rfl⟩
  | panicked m => exact Or.inr ⟨m, rfl⟩

/-- Claim C8 (confirmed): `Or` short-circuits on a left operand that
evaluates to `true` and `And` short-circuits on a left operand that
evaluates to `false` — for every right operand, including ones whose
evaluation would fail, since the result does not depend on `r` at all. -/
theorem c8_short_circuit :
    (∀ l r : AstNode, evaluate l = .ok (.Boolean true) →
      evaluate (.Or l r) = .ok (.Boolean true)) ∧
    (∀ l r : AstNode, evaluate l = .ok (.Boolean false) →
      evaluate (.And l r) = .ok (.Boolean false)) := by
  constructor
  · intro l r h
    simp [evaluate, h]
  · intro l r h
    simp [evaluate, h]

/-- Witness for Claim C8 at concrete inputs whose right operand's
evaluation aborts (mixed-kind addition). -/
theorem c8_short_circuit_witness :
    evaluate (.Or (.Boolean true)
      (.Binary (.Number (.Integer 1)) "+" (.Number (.Float 2)))) = .ok (.Boolean true) ∧
    evaluate (.And (.Boolean false)
      (.Binary (.Number (.Integer 1)) "+" (.Number (.Float 2)))) = .ok (.Boolean false) ∧
    evaluate (.Binary (.Number (.Integer 1)) "+" (.Number (.Float 2))) =
      .panicked "Cannot add integer and float" :=
  ⟨c8_short_circuit.1 _ _ rfl, c8_short_circuit.2 _ _ rfl, rfl⟩

theorem ite_cond_true {α : Sort _} {c : Bool} (h : c = true) (a b : α) :
    (if c = true then a else b) = a := by
  rw [h]
  simp

theorem ite_cond_false {α : Sort _} {c : Bool} (h : c = false) (a b : α) :
    (if c = true then a else b) = b := by
  rw [h]
  simp

theorem lexRun_nil (fuel : Nat) : lexRun fuel [] = .ok [] := by
  cases fuel <;> rfl

theorem lexRun_zero_cons (c : Char) (cs : List Char) :
    lexRun 0 (c :: cs) = .error "lexer fuel exhausted" := rfl

/-- Definitional unfolding of one step of the lexer loop. -/
theorem lexRun_succ_cons (fuel : Nat) (c : Char) (cs : List Char) :
    lexRun (fuel + 1) (c :: cs) =
    (if c = '=' then
      if headEq cs '=' = true then consTok .EqualEqual (lexRun fuel cs.tail)
      else consTok .Equal (lexRun fuel cs)
    else if c = '!' then
      if headEq cs '=' = true then consTok .BangEqual (lexRun fuel cs.tail)
      else consTok .Bang (lexRun fuel cs)
    else if c = '>' then
      if headEq cs '=' = true then consTok .GreaterEqual (lexRun fuel cs.tail)
      else consTok .Greater (lexRun fuel cs)
    else if c = '<' then
      if headEq cs '=' = true then consTok .LessEqual (lexRun fuel cs.tail)
      else consTok .Less (lexRun fuel cs)
    else if c = '/' then
      if headEq cs '/' = true then lexRun fuel (cs.tail.dropWhile (fun x => x != '\n'))
      else consTok .Slash (lexRun fuel cs)
    else if c = '"' then
      match scanString cs with
      | none => .error "UnterminatedString"
      | some (lit, rest) => consTok (.String (String.mk lit)) (lexRun fuel rest)
    else if c.isDigit = true then
      match scanNumber (c :: cs) false with
      | .error e => .error e
      | .ok (run, isFloat, rest) =>
        match numTok run isFloat with
        | .error e => .error e
        | .ok t => consTok t (lexRun fuel rest)
    else if identStart c = true then
      consTok (idTok ((c :: cs).takeWhile idChar)) (lexRun fuel ((c :: cs).dropWhile idChar))
    else if c = ' ' then consTok .Space (lexRun fuel cs)
    else if c = '\n' then consTok .NewLine (lexRun fuel cs)
    else if c = '\t' then consTok .Tab (lexRun fuel cs)
    else
      match fromChar c with
      | .error _ => .error "Scan Error"
      | .ok t => consTok t (lexRun fuel cs)) := rfl

theorem consTok_ok {t : TokenType} {r : Except String (List TokenType)}
    {ts : List TokenType} (h : consTok t r = .ok ts) :
    ∃ ts2, r = .ok ts2 ∧ ts = t :: ts2 := by
  cases r with
  | ok ts2 =>
    refine ⟨ts2, rfl, ?_⟩
    have h2 : Except.ok (t :: ts2) = Except.ok ts := h
    injection h2 with hh
    exact hh.symm
  | error e => exact absurd h (by simp [consTok])

theorem tokensText_nil : tokensText [] = [] := rfl

theorem tokensText_cons (t : TokenType) (ts : List TokenType) :
    tokensText (t :: ts) = (display t).data ++ tokensText ts := by
  simp [tokensText]

theorem plainSrc_parts {c : Char} {cs : List Char} (h : plainSrc (c :: cs) = true) :
    c.isDigit = false ∧ (c != '"') = true ∧ (c == '/' && headEq cs '/') = false ∧
      plainSrc cs = true := by
  simp only [plainSrc, Bool.and_eq_true, Bool.not_eq_true'] at h
  exact ⟨h.1.1.1, h.1.1.2, h.1.2, h.2⟩

theorem plainSrc_dropWhile (p : Char → Bool) :
    ∀ l : List Char, plainSrc l = true → plainSrc (l.dropWhile p) = true := by
  intro l
  induction l with
  | nil => intro h; simpa using h
  | cons c cs ihl =>
    intro h
    rw [List.dropWhile_cons]
    by_cases hpc : p c = true
    · rw [if_pos hpc]
      exact ihl (plainSrc_parts h).2.2.2
    · rw [if_neg hpc]
      exact h

/-- `KeyWord::from_str` and `Display for KeyWord` are mutually inverse on
the keyword strings: a successful keyword parse displays back to its
source text. -/
theorem kwToString_eq {s : String} {k : KeyWord} (h : kwFromStr s = some k) :
    kwToString k = s := by
  unfold kwFromStr at h
  by_cases h1 : s = "and"
  · rw [if_pos h1] at h; injection h with hh; subst hh; exact h1.symm
  rw [if_neg h1] at h
  by_cases h2 : s = "class"
  · rw [if_pos h2] at h; injection h with hh; subst hh; exact h2.symm
  rw [if_neg h2] at h
  by_cases h3 : s = "else"
  · rw [if_pos h3] at h; injection h with hh; subst hh; exact h3.symm
  rw [if_neg h3] at h
  by_cases h4 : s = "false"
  · rw [if_pos h4] at h; injection h with hh; subst hh; exact h4.symm
  rw [if_neg h4] at h
  by_cases h5 : s = "fun"
  · rw [if_pos h5] at h; injection h with hh; subst hh; exact h5.symm
  rw [if_neg h5] at h
  by_cases h6 : s = "for"
  · rw [if_pos h6] at h; injection h with hh; subst hh; exact h6.symm
  rw [if_neg h6] at h
  by_cases h7 : s = "if"
  · rw [if_pos h7] at h; injection h with hh; subst hh; exact h7.symm
  rw [if_neg h7] at h
  by_cases h8 : s = "nil"
  · rw [if_pos h8] at h; injection h with hh; subst hh; exact h8.symm
  rw [if_neg h8] at h
  by_cases h9 : s = "or"
  · rw [if_pos h9] at h; injection h with hh; subst hh; exact h9.symm
  rw [if_neg h9] at h
  by_cases h10 : s = "print"
  · rw [if_pos h10] at h; injection h with hh; subst hh; exact h10.symm
  rw [if_neg h10] at h
  by_cases h11 : s = "return"
  · rw [if_pos h11] at h; injection h with hh; subst hh; exact h11.symm
  rw [if_neg h11] at h
  by_cases h12 : s = "super"
  · rw [if_pos h12] at h; injection h with hh; subst hh; exact h12.symm
  rw [if_neg h12] at h
  by_cases h13 : s = "this"
  · rw [if_pos h13] at h; injection h with hh; subst hh; exact h13.symm
  rw [if_neg h13] at h
  by_cases h14 : s = "true"
  · rw [if_pos h14] at h; injection h with hh; subst hh; exact h14.symm
  rw [if_neg h14] at h
  by_cases h15 : s = "var"
  · rw [if_pos h15] at h; injection h with hh; subst hh; exact h15.symm
  rw [if_neg h15] at h
  by_cases h16 : s = "while"
  · rw [if_pos h16] at h; injection h with hh; subst hh; exact h16.symm
  rw [if_neg h16] at h
  exact Option.noConfusion h

/-- `TokenType::from_char` and `Display for TokenType` are mutually inverse
on single-character tokens. -/
theorem fromChar_display {c : Char} {t : TokenType} (h : fromChar c = .ok t) :
    (display t).data = [c] := by
  unfold fromChar at h
  by_cases h1 : c = '('
  · rw [if_pos h1] at h; injection h with hh; subst hh; rw [h1]; rfl
  rw [if_neg h1] at h
  by_cases h2 : c = ')'
  · rw [if_pos h2] at h; injection h with hh; subst hh; rw [h2]; rfl
  rw [if_neg h2] at h
  by_cases h3 : c = '{'
  · rw [if_pos h3] at h; injection h with hh; subst hh; rw [h3]; rfl
  rw [if_neg h3] at h
  by_cases h4 : c = '}'
  · rw [if_pos h4] at h; injection h with hh; subst hh; rw [h4]; rfl
  rw [if_neg h4] at h
  by_cases h5 : c = ','
  · rw [if_pos h5] at h; injection h with hh; subst hh; rw [h5]; rfl
  rw [if_neg h5] at h
  by_cases h6 : c = '.'
  · rw [if_pos h6] at h; injection h with hh; subst hh; rw [h6]; rfl
  rw [if_neg h6] at h
  by_cases h7 : c = '-'
  · rw [if_pos h7] at h; injection h with hh; subst hh; rw [h7]; rfl
  rw [if_neg h7] at h
  by_cases h8 : c = '+'
  · rw [if_pos h8] at h; injection h with hh; subst hh; rw [h8]; rfl
  rw [if_neg h8] at h
  by_cases h9 : c = ';'
  · rw [if_pos h9] at h; injection h with hh; subst hh; rw [h9]; rfl
  rw [if_neg h9] at h
  by_cases h10 : c = '*'
  · rw [if_pos h10] at h; injection h with hh; subst hh; rw [h10]; rfl
  rw [if_neg h10] at h
  by_cases h11 : c = '!'
  · rw [if_pos h11] at h; injection h with hh; subst hh; rw [h11]; rfl
  rw [if_neg h11] at h
  by_cases h12 : c = '='
  · rw [if_pos h12] at h; injection h with hh; subst hh; rw [h12]; rfl
  rw [if_neg h12] at h
  by_cases h13 : c = '>'
  · rw [if_pos h13] at h; injection h with hh; subst hh; rw [h13]; rfl
  rw [if_neg h13] at h
  by_cases h14 : c = '<'
  · rw [if_pos h14] at h; injection h with hh; subst hh; rw [h14]; rfl
  rw [if_neg h14] at h
  by_cases h15 : c = '/'
  · rw [if_pos h15] at h; injection h with hh; subst hh; rw [h15]; rfl
  rw [if_neg h15] at h
  by_cases h16 : c = ' '
  · rw [if_pos h16] at h; injection h with hh; subst hh; rw [h16]; rfl
  rw [if_neg h16] at h
  by_cases h17 : c = '\t'
  · rw [if_pos h17] at h; injection h with hh; subst hh; rw [h17]; rfl
  rw [if_neg h17] at h
  by_cases h18 : c = '\n'
  · rw [if_pos h18] at h; injection h with hh; subst hh; rw [h18]; rfl
  rw [if_neg h18] at h
  exact Except.noConfusion h

/-- The keyword-or-identifier token displays back to exactly the identifier
run it was lexed from. -/
theorem displayIdTok (run : List Char) : (display (idTok run)).data = run := by
  unfold idTok
  cases hk : kwFromStr (String.mk run) with
  | none => rfl
  | some k =>
    show (kwToString k).data = run
    rw [kwToString_eq hk]

/-- One step of the round-trip for the two-character lookahead operators
(`=`, `!`, `>`, `<`): whichever arm is taken, the emitted token displays
exactly the consumed characters. -/
theorem twoCharCase {fuel : Nat} {cs2 : List Char} {ts : List TokenType}
    (ih : ∀ cs ts, plainSrc cs = true → lexRun fuel cs = .ok ts → tokensText ts = cs)
    (c : Char) (tok1 tok2 : TokenType)
    (hd1 : (display tok1).data = [c]) (hd2 : (display tok2).data = [c, '='])
    (hps : plainSrc cs2 = true)
    (hok : (if headEq cs2 '=' = true then consTok tok2 (lexRun fuel cs2.tail)
            else consTok tok1 (lexRun fuel cs2)) = .ok ts) :
    tokensText ts = c :: cs2 := by
  cases cs2 with
  | nil =>
    rw [ite_cond_false (show headEq ([] : List Char) '=' = false from rfl)] at hok
    obtain ⟨ts2, hrest, rfl⟩ := consTok_ok hok
    rw [lexRun_nil] at hrest
    injection hrest with hh
    rw [tokensText_cons, ← hh, tokensText_nil, hd1]
    rfl
  | cons c2 rest =>
    by_cases hc2 : c2 = '='
    · have hh : headEq (c2 :: rest) '=' = true := beq_iff_eq.mpr hc2
      rw [ite_cond_true hh] at hok
      obtain ⟨ts2, hrest, rfl⟩ := consTok_ok hok
      have htt := ih rest ts2 (plainSrc_parts hps).2.2.2 hrest
      rw [tokensText_cons, htt, hd2, hc2]
      rfl
    · have hh : headEq (c2 :: rest) '=' = false := beq_eq_false_iff_ne.mpr hc2
      rw [ite_cond_false hh] at hok
      obtain ⟨ts2, hrest, rfl⟩ := consTok_ok hok
      have htt := ih (c2 :: rest) ts2 hps hrest
      rw [tokensText_cons, htt, hd1]
      rfl

/-- Round trip of the lexer loop over plain sources: re-joining the display
forms of the emitted tokens reconstructs the input exactly. -/
theorem lexRun_roundtrip :
    ∀ fuel cs ts, plainSrc cs = true → lexRun fuel cs = .ok ts →
      tokensText ts = cs := by
  intro fuel
  induction fuel with
  | zero =>
    intro cs ts hp hok
    cases cs with
    | nil =>
      have h : Except.ok ([] : List TokenType) = .ok ts := hok
      injection h with hh
      rw [← hh]
      rfl
    | cons c cs2 =>
      rw [lexRun_zero_cons] at hok
      exact Except.noConfusion hok
  | succ fuel ih =>
    intro cs ts hp hok
    cases cs with
    | nil =>
      have h : Except.ok ([] : List TokenType) = .ok ts := hok
      injection h with hh
      rw [← hh]
      rfl
    | cons c cs2 =>
      obtain ⟨hdig, hquo, hsl, hps⟩ := plainSrc_parts hp
      rw [lexRun_succ_cons] at hok
      by_cases h1 : c = '='
      · rw [if_pos h1] at hok
        exact twoCharCase ih c .Equal .EqualEqual (by rw [h1]; rfl) (by rw [h1]; rfl) hps hok
      rw [if_neg h1] at hok
      by_cases h2 : c = '!'
      · rw [if_pos h2] at hok
        exact twoCharCase ih c .Bang .BangEqual (by rw [h2]; rfl) (by rw [h2]; rfl) hps hok
      rw [if_neg h2] at hok
      by_cases h3 : c = '>'
      · rw [if_pos h3] at hok
        exact twoCharCase ih c .Greater .GreaterEqual (by rw [h3]; rfl) (by rw [h3]; rfl) hps hok
      rw [if_neg h3] at hok
      by_cases h4 : c = '<'
      · rw [if_pos h4] at hok
        exact twoCharCase ih c .Less .LessEqual (by rw [h4]; rfl) (by rw [h4]; rfl) hps hok
      rw [if_neg h4] at hok
      by_cases h5 : c = '/'
      · rw [if_pos h5] at hok
        have hnsl : headEq cs2 '/' = false := by
          subst h5
          rwa [show (('/' : Char) == '/') = true from rfl, Bool.true_and] at hsl
        rw [ite_cond_false hnsl] at hok
        obtain ⟨ts2, hrest, rfl⟩ := consTok_ok hok
        have htt := ih cs2 ts2 hps hrest
        rw [tokensText_cons, htt, h5]
        rfl
      rw [if_neg h5] at hok
      have hq : ¬(c = '"') := by
        intro hcq
        subst hcq
        exact absurd hquo (by decide)
      rw [if_neg hq] at hok
      rw [ite_cond_false hdig] at hok
      by_cases h8 : identStart c = true
      · rw [ite_cond_true h8] at hok
        obtain ⟨ts2, hrest, rfl⟩ := consTok_ok hok
        have htt := ih _ ts2 (plainSrc_dropWhile idChar (c :: cs2) hp) hrest
        rw [tokensText_cons, displayIdTok, htt]
        exact List.takeWhile_append_dropWhile idChar (c :: cs2)
      have h8f : identStart c = false := by
        cases hins : identStart c with
        | false => rfl
        | true => exact absurd hins h8
      rw [ite_cond_false h8f] at hok
      by_cases h9 : c = ' '
      · rw [if_pos h9] at hok
        obtain ⟨ts2, hrest, rfl⟩ := consTok_ok hok
        have htt := ih cs2 ts2 hps hrest
        rw [tokensText_cons, htt, h9]
        rfl
      rw [if_neg h9] at hok
      by_cases h10 : c = '\n'
      · rw [if_pos h10] at hok
        obtain ⟨ts2, hrest, rfl⟩ := consTok_ok hok
        have htt := ih cs2 ts2 hps hrest
        rw [tokensText_cons, htt, h10]
        rfl
      rw [if_neg h10] at hok
      by_cases h11 : c = '\t'
      · rw [if_pos h11] at hok
        obtain ⟨ts2, hrest, rfl⟩ := consTok_ok hok
        have htt := ih cs2 ts2 hps hrest
        rw [tokensText_cons, htt, h11]
        rfl
      rw [if_neg h11] at hok
      cases hfc : fromChar c with
      | error e =>
        rw [hfc] at hok
        have hok2 : (Except.error "Scan Error" : Except String (List TokenType)) = .ok ts := hok
        exact Except.noConfusion hok2
      | ok t =>
        rw [hfc] at hok
        have hok2 : consTok t (lexRun fuel cs2) = .ok ts := hok
        obtain ⟨ts2, hrest, rfl⟩ := consTok_ok hok2
        have htt := ih cs2 ts2 hps hrest
        rw [tokensText_cons, htt, fromChar_display hfc]
        rfl

/-- Claim C9 counterexample: the source text `"a"` (a string literal) lexes
successfully to a single `String` token, but the token's display form drops
the quotes, so re-joining does not reconstruct the source — refuting
losslessness as claimed. -/
theorem c9_lossless_counterexample :
    lexing [ '"', 'a', '"' ] = .ok [.String "a"] ∧
    tokensText [.String "a"] = [ 'a' ] ∧
    [ 'a' ] ≠ [ '"', 'a', '"' ] :=
  ⟨rfl, rfl, by decide⟩

/-- Claim C9 as amended: lexing is lossless modulo comments, the dropped
quotes of string literals, and the re-formatting of number literals — for
every source text containing no digit, no `"` and no `//` (so no number
literal, string literal or comment), a successful lex re-joins, via the
token display forms, to exactly the original text; whitespace is preserved
because each space, tab and newline is an explicit token. -/
theorem c9_lexing_lossless_amended (cs : List Char) (ts : List TokenType)
    (hplain : plainSrc cs = true) (hok : lexing cs = .ok ts) :
    tokensText ts = cs :=
  lexRun_roundtrip (cs.length + 1) cs ts hplain hok

/-- Witness for the amended Claim C9 theorem on a concrete source. -/
theorem c9_lexing_lossless_witness :
    plainSrc "var x = y;".data = true ∧
    tokensText [.KeyWord .Var, .Space, .Identifier "x", .Space, .Equal,
      .Space, .Identifier "y", .Semicolon] = "var x = y;".data :=
  ⟨by decide, c9_lexing_lossless_amended "var x = y;".data _ (by decide) rfl⟩

/-- Claim C10 counterexample: the claim says every pair of Integer
operands with a nonzero divisor yields the truncated quotient, but at the
in-domain pair `(i64::MIN, -1)` — the divisor `-1` is nonzero — Rust's
`/` aborts with its unconditional division-overflow panic instead of
returning a quotient. -/
theorem c10_division_overflow_counterexample :
    (-1 : Int) ≠ 0 ∧
    evaluate (.Binary (.Number (.Integer i64MinInt)) "/" (.Number (.Integer (-1)))) =
      .panicked "attempt to divide with overflow" :=
  ⟨by decide, rfl⟩

/-- Claim C10 as amended: integer division is unguarded — with a nonzero
divisor, and excepting the single overflow pair `(i64::MIN, -1)` where
Rust's `/` aborts with its overflow panic, `Binary /` on integers yields
the truncated quotient (`Int.tdiv` is Rust's `i64` division, truncation
toward zero); and whenever the divisor evaluates to `Integer 0` the
evaluation aborts with Rust's built-in division-by-zero panic, reachable
from the public `evaluate` interface. -/
theorem c10_integer_division_amended :
    (∀ a b : Int, b ≠ 0 → ¬(a = i64MinInt ∧ b = -1) →
      evaluate (.Binary (.Number (.Integer a)) "/" (.Number (.Integer b))) =
        .ok (.Number (.Integer (Int.tdiv a b)))) ∧
    (∀ (l r : AstNode) (a : Int), evaluate l = .ok (.Number (.Integer a)) →
      evaluate r = .ok (.Number (.Integer 0)) →
      evaluate (.Binary l "/" r) = .panicked "attempt to divide by zero") := by
  constructor
  · intro a b hb hover
    have h1 : evaluate (.Binary (.Number (.Integer a)) "/" (.Number (.Integer b))) =
        pmap EvaluateResult.Number (numberDiv (.Integer a) (.Integer b)) := rfl
    have h2 : numberDiv (.Integer a) (.Integer b) =
        if b = 0 then .panicked "attempt to divide by zero"
        else if a = i64MinInt ∧ b = -1 then .panicked "attempt to divide with overflow"
        else .ok (.Integer (Int.tdiv a b)) := rfl
    rw [h1, h2, if_neg hb, if_neg hover]
    rfl
  · intro l r a hl hr
    simp [evaluate, hl, hr, evalBinaryOp, numberDiv, pmap]

/-- Witness for the amended Claim C10 at concrete inputs: `7 / 2` yields
`Integer 3` (truncation), and a divisor expression evaluating to
`Integer 0` aborts. -/
theorem c10_integer_division_witness :
    ((2 : Int) ≠ 0 ∧ ¬((7 : Int) = i64MinInt ∧ (2 : Int) = -1) ∧
      evaluate (.Binary (.Number (.Integer 7)) "/" (.Number (.Integer 2))) =
        .ok (.Number (.Integer 3))) ∧
    evaluate (.Binary (.Number (.Integer 7)) "/" (.Group (.Number (.Integer 0)))) =
      .panicked "attempt to divide by zero" :=
  ⟨⟨by decide, by decide, c10_integer_division_amended.1 7 2 (by decide) (by decide)⟩,
   c10_integer_division_amended.2 _ _ 7 rfl rfl⟩
